import Mathlib

/-!
Shallow embedding of `src/app.py`, a Flask weather microservice.

Modelling conventions:
- JSON response bodies (`jsonify`) become values of the inductive `Json`.
- Python's `random.uniform(a, b)` becomes `uniform a b u` for an abstract
  draw `u ∈ [0,1]`; `random.choice(xs)` becomes `choice xs i` for an
  abstract index `i : ℕ` (reduced mod the list length).  A request's three
  draws are collected in a `RandDraws` record.
- Python's `round(x, 1)` (round half to even at one decimal) becomes
  `py_round1` over ℚ.
- The process-wide Prometheus state (`REQUEST_COUNT`, `REQUEST_LATENCY`)
  becomes an explicit `Metrics` record threaded through every handler;
  handlers that never touch the global metrics return it unchanged.
- `time.time()` readings become explicit rational parameters: `t0` at the
  start of `get_weather`, `t1` for the body timestamp, `t2` at the final
  latency observation.
- The `try/except` of `get_weather` is split into `weatherTryBody`
  (the `try` block, of type `Except`) and `handleWithCatch` (the
  `except` clause plus the unconditional latency observation), so that
  the catch branch can be stated on its own.
-/

/-- JSON values, as produced by Flask's `jsonify`. -/
inductive Json where
  | str : String → Json
  | num : ℚ → Json
  | arr : List Json → Json
  | obj : List (String × Json) → Json
deriving Repr

/-- One entry of `WEATHER_DATA` (src/app.py lines 39-52): the display name
and the parameters of the three per-city generators.  The lambda
`random.uniform(lo, hi)` is recorded by its bounds, the lambda
`random.choice(conds)` by its list. -/
structure CityData where
  city : String
  tempLo : ℚ
  tempHi : ℚ
  conditions : List String
  humLo : ℚ
  humHi : ℚ
deriving Repr, DecidableEq

/-- The `"new_york"` entry of `WEATHER_DATA` (src/app.py lines 40-45). -/
def new_york_data : CityData :=
  { city := "New York", tempLo := 0, tempHi := 35,
    conditions := ["Sunny", "Cloudy", "Rainy", "Snowy"],
    humLo := 30, humHi := 90 }

/-- The `"london"` entry of `WEATHER_DATA` (src/app.py lines 46-51). -/
def london_data : CityData :=
  { city := "London", tempLo := -5, tempHi := 25,
    conditions := ["Cloudy", "Rainy", "Foggy", "Clear"],
    humLo := 40, humHi := 95 }

/-- The static city table of src/app.py lines 39-52, keyed by lowercase
city identifier. -/
def WEATHER_DATA : List (String × CityData) :=
  [("new_york", new_york_data), ("london", london_data)]

/-- Python's `str.lower` on one character, for the ASCII range that the
city identifiers use. -/
def lowerChar (c : Char) : Char :=
  if 65 ≤ c.toNat ∧ c.toNat ≤ 90 then Char.ofNat (c.toNat + 32) else c

/-- Python's `city.lower()` (src/app.py line 79), for ASCII strings. -/
def lowerStr (s : String) : String := String.mk (s.data.map lowerChar)

/-- The random draws consumed by one `get_weather` request: two unit-interval
draws (for the two `random.uniform` calls) and one index draw (for
`random.choice`). -/
structure RandDraws where
  tempU : ℚ
  condI : ℕ
  humU : ℚ

/-- The unit-interval draws of a `RandDraws` lie in [0, 1], as `random.random()`
guarantees. -/
def validRand (r : RandDraws) : Prop :=
  0 ≤ r.tempU ∧ r.tempU ≤ 1 ∧ 0 ≤ r.humU ∧ r.humU ≤ 1

/-- `random.uniform(a, b)` = `a + (b - a) * random.random()`. -/
def uniform (a b u : ℚ) : ℚ := a + (b - a) * u

/-- `random.choice(xs)`: selects one element of `xs`; the abstract draw `i`
is reduced mod the length. -/
def choice (xs : List String) (i : ℕ) : String :=
  xs.getD (i % xs.length) ""

/-- Round half to even to the nearest integer, as Python's `round` does. -/
def rhe (q : ℚ) : ℤ :=
  if q - ⌊q⌋ < 1 / 2 then ⌊q⌋
  else if 1 / 2 < q - ⌊q⌋ then ⌊q⌋ + 1
  else if ⌊q⌋ % 2 = 0 then ⌊q⌋ else ⌊q⌋ + 1

/-- Python's `round(x, 1)`: round half to even at one decimal place. -/
def py_round1 (q : ℚ) : ℚ := (rhe (10 * q) : ℚ) / 10

/-- The Prometheus state of the process: the counter `REQUEST_COUNT`
(labelled by endpoint and status) and the observations of the histogram
`REQUEST_LATENCY` (labelled by endpoint). -/
structure Metrics where
  requestCount : String × String → ℕ
  latency : String → List ℚ

/-- `REQUEST_COUNT.labels(endpoint=e, status=s).inc()`. -/
def incCount (m : Metrics) (e s : String) : Metrics :=
  { m with requestCount := fun p =>
      if p = (e, s) then m.requestCount p + 1 else m.requestCount p }

/-- `REQUEST_LATENCY.labels(endpoint=e).observe(v)`. -/
def observeLatency (m : Metrics) (e : String) (v : ℚ) : Metrics :=
  { m with latency := fun q =>
      if q = e then m.latency q ++ [v] else m.latency q }

/-- The metrics state at process start: all counters 0, no observations. -/
def emptyMetrics : Metrics := ⟨fun _ => 0, fun _ => []⟩

/-- An HTTP response: JSON body and status code. -/
structure Response where
  body : Json
  status : ℕ
deriving Repr

/-- The weather dict built in src/app.py lines 86-92. -/
def weatherJson (name : String) (t : ℚ) (c : String) (h : ℚ) (ts : ℚ) : Json :=
  .obj [("city", .str name), ("temperature", .num t),
        ("conditions", .str c), ("humidity", .num h),
        ("timestamp", .num ts)]

/-- An `{"error": msg}` body. -/
def errorJson (msg : String) : Json := .obj [("error", .str msg)]

/-- The `try` block of `get_weather` (src/app.py lines 78-95): lookup of the
lowercased city, the 404 branch, and the 200 branch that draws and rounds
the weather values.  `t1` is the `time.time()` reading taken for the body
timestamp.  The block is total here, so it always returns `.ok`; its
`Except` type records where the `except` clause of the source attaches. -/
def weatherTryBody (city : String) (r : RandDraws) (t1 : ℚ) (m : Metrics) :
    Except String (Response × Metrics) :=
  match WEATHER_DATA.lookup (lowerStr city) with
  | none =>
      .ok (⟨errorJson ("City " ++ city ++ " not found"), 404⟩,
           incCount m "/weather" "404")
  | some cd =>
      .ok (⟨weatherJson cd.city
              (py_round1 (uniform cd.tempLo cd.tempHi r.tempU))
              (choice cd.conditions r.condI)
              (py_round1 (uniform cd.humLo cd.humHi r.humU))
              t1,
            200⟩,
           incCount m "/weather" "200")

/-- The `try/except` wrapper and the unconditional latency observation of
`get_weather` (src/app.py lines 77-104): run the body; on an exception
answer 500 with a generic message and bump the 500 counter; in every case
observe the elapsed time `t2 - t0` into the `/weather` latency histogram. -/
def handleWithCatch (body : Metrics → Except String (Response × Metrics))
    (t0 t2 : ℚ) (m : Metrics) : Response × Metrics :=
  let rm :=
    match body m with
    | .ok rm => rm
    | .error _ =>
        (⟨errorJson "Internal server error", 500⟩,
         incCount m "/weather" "500")
  (rm.1, observeLatency rm.2 "/weather" (t2 - t0))

/-- `GET /weather/<city>` (src/app.py lines 73-104).  `t0` is the
`time.time()` at entry, `t1` the reading for the body timestamp, `t2` the
reading at the latency observation. -/
def get_weather (city : String) (r : RandDraws) (t0 t1 t2 : ℚ) (m : Metrics) :
    Response × Metrics :=
  handleWithCatch (weatherTryBody city r t1) t0 t2 m

/-- `GET /health` (src/app.py lines 57-60). -/
def health_check (m : Metrics) : Response × Metrics :=
  (⟨.obj [("status", .str "healthy")], 200⟩, m)

/-- `GET /metrics` (src/app.py lines 65-68): returns the current metrics
snapshot (whose Prometheus text rendering is not under verification, so the
body is modelled as the snapshot itself) with status 200. -/
def metrics (m : Metrics) : (Metrics × ℕ) × Metrics :=
  ((m, 200), m)

/-- `GET /` (src/app.py lines 109-121): static service metadata; the
version comes from the environment map `env`, defaulting to "1.0.0".
Flask answers 200 for a bare body. -/
def index (env : String → Option String) (m : Metrics) : Response × Metrics :=
  (⟨.obj [("service", .str "Weather Microservice"),
          ("version", .str ((env "APP_VERSION").getD "1.0.0")),
          ("endpoints", .arr
            [ .obj [("path", .str "/"), ("method", .str "GET"),
                    ("description", .str "Service information")],
              .obj [("path", .str "/health"), ("method", .str "GET"),
                    ("description", .str "Health check endpoint")],
              .obj [("path", .str "/metrics"), ("method", .str "GET"),
                    ("description", .str "Prometheus metrics")],
              .obj [("path", .str "/weather/<city>"), ("method", .str "GET"),
                    ("description", .str "Get weather for a city")] ])],
    200⟩, m)

/-! ### Helper lemmas -/

/-- `random.uniform(a, b)` stays within `[a, b]` when `a ≤ b`. -/
theorem uniform_mem (a b u : ℚ) (hab : a ≤ b) (h0 : 0 ≤ u) (h1 : u ≤ 1) :
    a ≤ uniform a b u ∧ uniform a b u ≤ b := by
  unfold uniform
  constructor <;> nlinarith

/-- `random.choice` on a nonempty list yields a member of the list. -/
theorem choice_mem (xs : List String) (i : ℕ) (h : xs ≠ []) :
    choice xs i ∈ xs := by
  have hlen : 0 < xs.length := List.length_pos.mpr h
  have hlt : i % xs.length < xs.length := Nat.mod_lt _ hlen
  unfold choice
  rw [List.getD_eq_getElem xs _ hlt]
  exact List.getElem_mem hlt

/-- Round half to even never rounds below an integer lower bound. -/
theorem rhe_ge (n : ℤ) (q : ℚ) (h : (n : ℚ) ≤ q) : n ≤ rhe q := by
  have hfl : n ≤ ⌊q⌋ := Int.le_floor.mpr h
  unfold rhe
  split
  · exact hfl
  · split
    · omega
    · split <;> omega

/-- Round half to even never rounds above an integer upper bound. -/
theorem rhe_le (n : ℤ) (q : ℚ) (h : q ≤ (n : ℚ)) : rhe q ≤ n := by
  have hfl : ⌊q⌋ ≤ n := by
    have := Int.floor_le_floor h
    simpa using this
  unfold rhe
  split
  · exact hfl
  all_goals {
    rename_i hcond
    have hlt : (⌊q⌋ : ℚ) < q := by
      have hq : (1 : ℚ) / 2 ≤ q - ⌊q⌋ := le_of_not_lt hcond
      linarith
    have hltn : (⌊q⌋ : ℚ) < (n : ℚ) := lt_of_lt_of_le hlt h
    have : ⌊q⌋ < n := by exact_mod_cast hltn
    split <;> omega }

/-- Rounding to one decimal place stays within integer bounds. -/
theorem py_round1_mem (lo hi : ℤ) (q : ℚ) (hlo : (lo : ℚ) ≤ q)
    (hhi : q ≤ (hi : ℚ)) : (lo : ℚ) ≤ py_round1 q ∧ py_round1 q ≤ (hi : ℚ) := by
  have h1 : ((10 * lo : ℤ) : ℚ) ≤ 10 * q := by push_cast; linarith
  have h2 : 10 * q ≤ ((10 * hi : ℤ) : ℚ) := by push_cast; linarith
  have g1 : (10 * lo : ℤ) ≤ rhe (10 * q) := rhe_ge _ _ h1
  have g2 : rhe (10 * q) ≤ (10 * hi : ℤ) := rhe_le _ _ h2
  have g1q : ((10 * lo : ℤ) : ℚ) ≤ (rhe (10 * q) : ℚ) := by exact_mod_cast g1
  have g2q : ((rhe (10 * q)) : ℚ) ≤ ((10 * hi : ℤ) : ℚ) := by exact_mod_cast g2
  unfold py_round1
  push_cast at g1q g2q ⊢
  constructor <;> linarith

/-- The result of rounding to one decimal place is a multiple of 1/10. -/
theorem py_round1_tenth (q : ℚ) : ∃ n : ℤ, py_round1 q = (n : ℚ) / 10 :=
  ⟨rhe (10 * q), rfl⟩

/-- A successful lookup in the static city table yields one of its two
records. -/
theorem lookup_cases (s : String) (cd : CityData)
    (h : WEATHER_DATA.lookup s = some cd) :
    cd = new_york_data ∨ cd = london_data := by
  simp only [WEATHER_DATA, List.lookup] at h
  split at h
  · exact Or.inl (Option.some.inj h).symm
  · split at h
    · exact Or.inr (Option.some.inj h).symm
    · exact absurd h (by simp)

/-! ### Claim theorems -/

/-- C2: when the lowercased city is not a key of the static table,
`GET /weather/{city}` answers 404 with body
`{"error": "City {original-case input} not found"}` (the message embeds the
path segment exactly as received), the `(endpoint=/weather, status=404)`
counter is incremented by exactly one, and the latency is observed. -/
theorem weather_not_found_404 (city : String) (r : RandDraws)
    (t0 t1 t2 : ℚ) (m : Metrics)
    (h : WEATHER_DATA.lookup (lowerStr city) = none) :
    get_weather city r t0 t1 t2 m =
      (⟨errorJson ("City " ++ city ++ " not found"), 404⟩,
       observeLatency (incCount m "/weather" "404") "/weather" (t2 - t0)) := by
  simp [get_weather, handleWithCatch, weatherTryBody, h]

/-- Witness for C2: the spec's own example `GET /weather/atlantis`. -/
theorem weather_not_found_404_witness :
    WEATHER_DATA.lookup (lowerStr "atlantis") = none ∧
    get_weather "atlantis" ⟨0, 0, 0⟩ 0 0 0 emptyMetrics =
      (⟨errorJson "City atlantis not found", 404⟩,
       observeLatency (incCount emptyMetrics "/weather" "404") "/weather"
         (0 - 0)) :=
  ⟨rfl, weather_not_found_404 "atlantis" ⟨0, 0, 0⟩ 0 0 0 emptyMetrics rfl⟩

/-- C4: if an exception is raised inside the `try` block, the handler
answers 500 with body exactly `{"error": "Internal server error"}` (no
exception detail reaches the client), increments the
`(endpoint=/weather, status=500)` counter, observes the latency, and the
exception does not propagate (the wrapper returns an ordinary response). -/
theorem catch_yields_500 (body : Metrics → Except String (Response × Metrics))
    (e : String) (t0 t2 : ℚ) (m : Metrics) (h : body m = .error e) :
    handleWithCatch body t0 t2 m =
      (⟨errorJson "Internal server error", 500⟩,
       observeLatency (incCount m "/weather" "500") "/weather" (t2 - t0)) := by
  simp [handleWithCatch, h]

/-- Witness for C4: a body that throws. -/
theorem catch_yields_500_witness :
    (fun (_ : Metrics) =>
        (.error "boom" : Except String (Response × Metrics))) emptyMetrics
      = .error "boom" ∧
    handleWithCatch
        (fun _ => (.error "boom" : Except String (Response × Metrics)))
        0 0 emptyMetrics =
      (⟨errorJson "Internal server error", 500⟩,
       observeLatency (incCount emptyMetrics "/weather" "500") "/weather"
         (0 - 0)) :=
  ⟨rfl, catch_yields_500 (fun _ => .error "boom") "boom" 0 0 emptyMetrics rfl⟩

/-- C5: the 500 branch of `get_weather` is unreachable: the `try` block is
total (it always returns normally, for every city and every draw), so the
handler never answers 500. -/
theorem weather_never_500 (city : String) (r : RandDraws) (t0 t1 t2 : ℚ)
    (m : Metrics) :
    (∃ rm, weatherTryBody city r t1 m = .ok rm) ∧
    (get_weather city r t0 t1 t2 m).1.status ≠ 500 := by
  cases hl : WEATHER_DATA.lookup (lowerStr city) with
  | none =>
      refine ⟨⟨(⟨errorJson ("City " ++ city ++ " not found"), 404⟩,
          incCount m "/weather" "404"), ?_⟩, ?_⟩ <;>
        simp [get_weather, handleWithCatch, weatherTryBody, hl]
  | some cd =>
      refine ⟨⟨(⟨weatherJson cd.city
          (py_round1 (uniform cd.tempLo cd.tempHi r.tempU))
          (choice cd.conditions r.condI)
          (py_round1 (uniform cd.humLo cd.humHi r.humU)) t1, 200⟩,
          incCount m "/weather" "200"), ?_⟩, ?_⟩ <;>
        simp [get_weather, handleWithCatch, weatherTryBody, hl]

/-- C6: `GET /health` answers 200 with body exactly `{"status":"healthy"}`
in every process state, and leaves the state unchanged. -/
theorem health_always_healthy (m : Metrics) :
    health_check m = (⟨Json.obj [("status", Json.str "healthy")], 200⟩, m) :=
  rfl

/-- C7: `GET /` answers 200 with the service name, the version taken from
the environment variable `APP_VERSION` (defaulting to "1.0.0" when unset),
and exactly the four documented routes, each with method GET. -/
theorem index_static_metadata (env : String → Option String) (m : Metrics) :
    index env m =
      (⟨Json.obj [("service", Json.str "Weather Microservice"),
          ("version", Json.str ((env "APP_VERSION").getD "1.0.0")),
          ("endpoints", Json.arr
            [ Json.obj [("path", Json.str "/"), ("method", Json.str "GET"),
                ("description", Json.str "Service information")],
              Json.obj [("path", Json.str "/health"),
                ("method", Json.str "GET"),
                ("description", Json.str "Health check endpoint")],
              Json.obj [("path", Json.str "/metrics"),
                ("method", Json.str "GET"),
                ("description", Json.str "Prometheus metrics")],
              Json.obj [("path", Json.str "/weather/<city>"),
                ("method", Json.str "GET"),
                ("description", Json.str "Get weather for a city")] ])],
        200⟩, m) :=
  rfl

/-- C9: lookup normalizes only letter case, not spacing or punctuation:
the space form of New York is rejected with 404 in either casing, while
the underscore identifier succeeds with 200. -/
theorem lookup_only_case_normalized (r : RandDraws) (t0 t1 t2 : ℚ)
    (m : Metrics) :
    (get_weather "new york" r t0 t1 t2 m).1.status = 404 ∧
    (get_weather "New York" r t0 t1 t2 m).1.status = 404 ∧
    (get_weather "New_York" r t0 t1 t2 m).1.status = 200 :=
  ⟨rfl, rfl, rfl⟩

/-- C10: the `/health`, `/metrics` and `/` handlers leave every request
counter and latency histogram unchanged; only `get_weather` touches the
metrics state. -/
theorem other_handlers_preserve_metrics (env : String → Option String)
    (m : Metrics) :
    (health_check m).2 = m ∧ (metrics m).2 = m ∧ (index env m).2 = m :=
  ⟨rfl, rfl, rfl⟩

/-- Rounded uniform draws stay within integer-valued ℚ bounds. -/
theorem round_uniform_mem (lo hi u : ℚ) (a b : ℤ) (hla : lo = (a : ℚ))
    (hhb : hi = (b : ℚ)) (hab : lo ≤ hi) (h0 : 0 ≤ u) (h1 : u ≤ 1) :
    lo ≤ py_round1 (uniform lo hi u) ∧ py_round1 (uniform lo hi u) ≤ hi := by
  obtain ⟨hx, hy⟩ := uniform_mem lo hi u hab h0 h1
  subst hla
  subst hhb
  exact py_round1_mem a b _ hx hy

/-- C3: every `GET /weather/{city}` request increments exactly one status
counter for endpoint `/weather` (the one matching the outcome status) and
appends exactly one observation, the elapsed time since request start, to
the `/weather` latency histogram; all other counters and histograms are
untouched. -/
theorem weather_metrics_once (city : String) (r : RandDraws) (t0 t1 t2 : ℚ)
    (m : Metrics) :
    ((get_weather city r t0 t1 t2 m).2.requestCount
        ("/weather", toString (get_weather city r t0 t1 t2 m).1.status)
      = m.requestCount
          ("/weather", toString (get_weather city r t0 t1 t2 m).1.status)
        + 1) ∧
    (∀ e s,
      (e, s) ≠ ("/weather", toString (get_weather city r t0 t1 t2 m).1.status)
        → (get_weather city r t0 t1 t2 m).2.requestCount (e, s)
          = m.requestCount (e, s)) ∧
    ((get_weather city r t0 t1 t2 m).2.latency "/weather"
      = m.latency "/weather" ++ [t2 - t0]) ∧
    (∀ e, e ≠ "/weather" →
      (get_weather city r t0 t1 t2 m).2.latency e = m.latency e) := by
  cases hl : WEATHER_DATA.lookup (lowerStr city) with
  | none =>
      have hst : (get_weather city r t0 t1 t2 m).1.status = 404 := by
        simp [get_weather, handleWithCatch, weatherTryBody, hl]
      have hm : (get_weather city r t0 t1 t2 m).2 =
          observeLatency (incCount m "/weather" "404") "/weather" (t2 - t0) := by
        simp [get_weather, handleWithCatch, weatherTryBody, hl]
      rw [hst, hm]
      have hts : toString (404 : ℕ) = "404" := rfl
      rw [hts]
      refine ⟨by simp [observeLatency, incCount], ?_,
        by simp [observeLatency, incCount], ?_⟩
      · intro e s hne
        simp only [observeLatency, incCount]
        exact if_neg hne
      · intro e he
        simp only [observeLatency, incCount]
        exact if_neg he
  | some cd =>
      have hst : (get_weather city r t0 t1 t2 m).1.status = 200 := by
        simp [get_weather, handleWithCatch, weatherTryBody, hl]
      have hm : (get_weather city r t0 t1 t2 m).2 =
          observeLatency (incCount m "/weather" "200") "/weather" (t2 - t0) := by
        simp [get_weather, handleWithCatch, weatherTryBody, hl]
      rw [hst, hm]
      have hts : toString (200 : ℕ) = "200" := rfl
      rw [hts]
      refine ⟨by simp [observeLatency, incCount], ?_,
        by simp [observeLatency, incCount], ?_⟩
      · intro e s hne
        simp only [observeLatency, incCount]
        exact if_neg hne
      · intro e he
        simp only [observeLatency, incCount]
        exact if_neg he

/-- C1: for every identifier in the static city table, in any letter-case,
`GET /weather/{city}` answers 200 with a body whose temperature lies within
that city's configured range, whose conditions value belongs to that city's
configured set, and whose temperature and humidity are rounded to one
decimal place (multiples of 1/10). -/
theorem weather_found_in_range (city : String) (cd : CityData)
    (r : RandDraws) (t0 t1 t2 : ℚ) (m : Metrics)
    (hfound : WEATHER_DATA.lookup (lowerStr city) = some cd)
    (hr : validRand r) :
    (get_weather city r t0 t1 t2 m).1.status = 200 ∧
    ∃ t c h,
      (get_weather city r t0 t1 t2 m).1.body = weatherJson cd.city t c h t1 ∧
      cd.tempLo ≤ t ∧ t ≤ cd.tempHi ∧ c ∈ cd.conditions ∧
      cd.humLo ≤ h ∧ h ≤ cd.humHi ∧
      (∃ n : ℤ, t = (n : ℚ) / 10) ∧ (∃ n : ℤ, h = (n : ℚ) / 10) := by
  obtain ⟨h1, h2, h3, h4⟩ := hr
  have hstatus : (get_weather city r t0 t1 t2 m).1.status = 200 := by
    simp [get_weather, handleWithCatch, weatherTryBody, hfound]
  have hbody : (get_weather city r t0 t1 t2 m).1.body =
      weatherJson cd.city (py_round1 (uniform cd.tempLo cd.tempHi r.tempU))
        (choice cd.conditions r.condI)
        (py_round1 (uniform cd.humLo cd.humHi r.humU)) t1 := by
    simp [get_weather, handleWithCatch, weatherTryBody, hfound]
  have hcond : choice cd.conditions r.condI ∈ cd.conditions := by
    rcases lookup_cases _ _ hfound with hcd | hcd <;> subst hcd <;>
      exact choice_mem _ _ (by simp [new_york_data, london_data])
  have htemp : cd.tempLo ≤ py_round1 (uniform cd.tempLo cd.tempHi r.tempU) ∧
      py_round1 (uniform cd.tempLo cd.tempHi r.tempU) ≤ cd.tempHi := by
    rcases lookup_cases _ _ hfound with hcd | hcd
    · subst hcd
      exact round_uniform_mem _ _ r.tempU 0 35 (by norm_num [new_york_data])
        (by norm_num [new_york_data]) (by norm_num [new_york_data]) h1 h2
    · subst hcd
      exact round_uniform_mem _ _ r.tempU (-5) 25 (by norm_num [london_data])
        (by norm_num [london_data]) (by norm_num [london_data]) h1 h2
  have hhum : cd.humLo ≤ py_round1 (uniform cd.humLo cd.humHi r.humU) ∧
      py_round1 (uniform cd.humLo cd.humHi r.humU) ≤ cd.humHi := by
    rcases lookup_cases _ _ hfound with hcd | hcd
    · subst hcd
      exact round_uniform_mem _ _ r.humU 30 90 (by norm_num [new_york_data])
        (by norm_num [new_york_data]) (by norm_num [new_york_data]) h3 h4
    · subst hcd
      exact round_uniform_mem _ _ r.humU 40 95 (by norm_num [london_data])
        (by norm_num [london_data]) (by norm_num [london_data]) h3 h4
  exact ⟨hstatus, _, _, _, hbody, htemp.1, htemp.2, hcond, hhum.1, hhum.2,
    py_round1_tenth _, py_round1_tenth _⟩

/-- Witness for C1: mixed-case `GET /weather/LoNdOn` with draws 1/2. -/
theorem weather_found_in_range_witness :
    (WEATHER_DATA.lookup (lowerStr "LoNdOn") = some london_data ∧
      validRand ⟨1/2, 1, 1/2⟩) ∧
    ((get_weather "LoNdOn" ⟨1/2, 1, 1/2⟩ 0 0 0 emptyMetrics).1.status = 200 ∧
    ∃ t c h,
      (get_weather "LoNdOn" ⟨1/2, 1, 1/2⟩ 0 0 0 emptyMetrics).1.body =
        weatherJson london_data.city t c h 0 ∧
      london_data.tempLo ≤ t ∧ t ≤ london_data.tempHi ∧
      c ∈ london_data.conditions ∧
      london_data.humLo ≤ h ∧ h ≤ london_data.humHi ∧
      (∃ n : ℤ, t = (n : ℚ) / 10) ∧ (∃ n : ℤ, h = (n : ℚ) / 10)) :=
  ⟨⟨rfl, by constructor <;> norm_num⟩,
   weather_found_in_range "LoNdOn" london_data ⟨1/2, 1, 1/2⟩ 0 0 0
     emptyMetrics rfl (by constructor <;> norm_num)⟩

/-- C8: responses to `GET /weather/london` are not constant across calls:
two random-source states produce different temperatures, and every
produced value lies within London's declared bounds (temperature in
[-5, 25], humidity in [40, 95]). -/
theorem london_varies_within_bounds (r : RandDraws) (t0 t1 t2 : ℚ)
    (m : Metrics) (h1 : 0 ≤ r.tempU) (h2 : r.tempU ≤ 1)
    (h3 : 0 ≤ r.humU) (h4 : r.humU ≤ 1) :
    (∃ r1 r2 : RandDraws, validRand r1 ∧ validRand r2 ∧
      ∃ ta ca ha tb cb hb,
        (get_weather "london" r1 t0 t1 t2 m).1.body =
          weatherJson "London" ta ca ha t1 ∧
        (get_weather "london" r2 t0 t1 t2 m).1.body =
          weatherJson "London" tb cb hb t1 ∧
        ta ≠ tb) ∧
    (∃ t c h,
      (get_weather "london" r t0 t1 t2 m).1.body =
        weatherJson "London" t c h t1 ∧
      -5 ≤ t ∧ t ≤ 25 ∧ 40 ≤ h ∧ h ≤ 95) := by
  constructor
  · refine ⟨⟨0, 0, 0⟩, ⟨1, 0, 1⟩,
      by constructor <;> norm_num, by constructor <;> norm_num,
      py_round1 (uniform (-5) 25 0),
      choice ["Cloudy", "Rainy", "Foggy", "Clear"] 0,
      py_round1 (uniform 40 95 0),
      py_round1 (uniform (-5) 25 1),
      choice ["Cloudy", "Rainy", "Foggy", "Clear"] 0,
      py_round1 (uniform 40 95 1), rfl, rfl, ?_⟩
    norm_num [py_round1, rhe, uniform]
  · refine ⟨py_round1 (uniform (-5) 25 r.tempU),
      choice ["Cloudy", "Rainy", "Foggy", "Clear"] r.condI,
      py_round1 (uniform 40 95 r.humU), rfl, ?_, ?_, ?_, ?_⟩
    · exact (round_uniform_mem (-5) 25 r.tempU (-5) 25 (by norm_num)
        (by norm_num) (by norm_num) h1 h2).1
    · exact (round_uniform_mem (-5) 25 r.tempU (-5) 25 (by norm_num)
        (by norm_num) (by norm_num) h1 h2).2
    · exact (round_uniform_mem 40 95 r.humU 40 95 (by norm_num)
        (by norm_num) (by norm_num) h3 h4).1
    · exact (round_uniform_mem 40 95 r.humU 40 95 (by norm_num)
        (by norm_num) (by norm_num) h3 h4).2

/-- Witness for C8: the draws-all-zero random state. -/
theorem london_varies_within_bounds_witness :
    (0 ≤ (RandDraws.mk 0 0 0).tempU ∧ (RandDraws.mk 0 0 0).tempU ≤ 1 ∧
     0 ≤ (RandDraws.mk 0 0 0).humU ∧ (RandDraws.mk 0 0 0).humU ≤ 1) ∧
    ((∃ r1 r2 : RandDraws, validRand r1 ∧ validRand r2 ∧
      ∃ ta ca ha tb cb hb,
        (get_weather "london" r1 0 0 0 emptyMetrics).1.body =
          weatherJson "London" ta ca ha 0 ∧
        (get_weather "london" r2 0 0 0 emptyMetrics).1.body =
          weatherJson "London" tb cb hb 0 ∧
        ta ≠ tb) ∧
    (∃ t c h,
      (get_weather "london" (RandDraws.mk 0 0 0) 0 0 0 emptyMetrics).1.body =
        weatherJson "London" t c h 0 ∧
      -5 ≤ t ∧ t ≤ 25 ∧ 40 ≤ h ∧ h ≤ 95)) :=
  ⟨⟨by norm_num, by norm_num, by norm_num, by norm_num⟩,
   london_varies_within_bounds ⟨0, 0, 0⟩ 0 0 0 emptyMetrics
     (by norm_num) (by norm_num) (by norm_num) (by norm_num)⟩
